import Mathlib

/-!
Shallow embedding of the quotation-bot webhook service (`app.py`).

The service receives WhatsApp webhook requests, extracts structured order
fields from free text via a language-model call, renders a document, emails
it, and replies to the sender.  We embed the deterministic parts of the
source faithfully:

* `parse_command_with_ai` — the validation / normalisation step applied to
  the JSON object parsed from the model's response (app.py lines 97-127).
  The surrounding model call and `json.loads` are external; a failed call or
  a JSON parse failure is modelled as the `none` input of
  `parse_command_full`.  Per the prompt's mandated output schema every field
  value is a JSON string; we model JSON values as strings or `null`
  (`JVal`).  Python truthiness on these values is `truthyJ`.
* `float`/`int` string conversion — `parseFloat` / `parseInt` model Python's
  `float(str)` / `int(str)` on decimal numerals (optional sign, optional
  decimal point, surrounding whitespace; the exotic forms `inf`, `nan`,
  underscores and exponents are not modelled, as the claims only concern
  decimal numerals).  Numbers are exact rationals, not IEEE doubles; the
  formatting step rounds half-up where CPython rounds the underlying binary
  double, which agrees on all exactly-representable two-decimal inputs.
* `f"₹{x:,.2f}"` — `formatCurrency`.
* the webhook dispatcher `handle_webhook` (app.py lines 191-301), with the
  external collaborators (model call, docx rendering, SMTP send, file
  removal, WhatsApp reply) supplied as oracle parameters giving their
  outcome, and the environment configuration passed explicitly.
-/

/-- A JSON value of the model response: a string or `null`.  (The extraction
prompt mandates that every field be returned as a JSON string; `jnull`
models an explicitly null field.) -/
inductive JVal where
  | jstr (s : String)
  | jnull
deriving DecidableEq

/-- The parsed model response: the Python dict produced by `json.loads`,
as an association list. -/
abbrev Ctx := List (String × JVal)

/-- Python `context[k]` / `k in context` combined: the value at key `k`,
or `none` when the key is absent. -/
def lookupCtx : Ctx → String → Option JVal
  | [], _ => none
  | (k, v) :: rest, k₀ => if k = k₀ then some v else lookupCtx rest k₀

/-- Python `context[k] = v`: replace the value at `k`, or append the key. -/
def setCtx : Ctx → String → JVal → Ctx
  | [], k₀, v₀ => [(k₀, v₀)]
  | (k, v) :: rest, k₀, v₀ =>
    if k = k₀ then (k₀, v₀) :: rest else (k, v) :: setCtx rest k₀ v₀

/-- Python truthiness of `k in context and context[k]`: the key is present
and its value is a non-empty string (`null` and `""` are falsy). -/
def truthyJ : Option JVal → Bool
  | some (JVal.jstr s) => !(s == "")
  | _ => false

/-- Strip leading and trailing whitespace (Python `float`/`int` accept it). -/
def trimChars (l : List Char) : List Char :=
  ((l.dropWhile Char.isWhitespace).reverse.dropWhile Char.isWhitespace).reverse

/-- Consume an optional leading sign; returns (negative?, rest). -/
def parseSign : List Char → Bool × List Char
  | '-' :: rest => (true, rest)
  | '+' :: rest => (false, rest)
  | l => (false, l)

/-- Split at the first decimal point: (integer digits, fractional digits if
a point is present). -/
def splitDot : List Char → List Char × Option (List Char)
  | [] => ([], none)
  | '.' :: rest => ([], some rest)
  | c :: rest =>
    let p := splitDot rest
    (c :: p.1, p.2)

/-- Numeric value of a digit list (most significant first). -/
def digitsToNat (l : List Char) : ℕ :=
  l.foldl (fun acc c => 10 * acc + (c.toNat - '0'.toNat)) 0

/-- The lexical part of Python `float(s)` on decimal numerals: optional
surrounding whitespace, optional sign, digits with an optional decimal
point, at least one digit.  Returns (negative?, integer digits value,
fraction digits value, number of fraction digits). -/
def parseFloatParts (s : String) : Option (Bool × ℕ × ℕ × ℕ) :=
  let p := parseSign (trimChars s.toList)
  let q := splitDot p.2
  let ip := q.1
  let fp := (q.2).getD []
  if (ip ++ fp).isEmpty then none
  else if (ip ++ fp).all Char.isDigit then
    some (p.1, digitsToNat ip, digitsToNat fp, fp.length)
  else none

/-- The rational value denoted by a parsed decimal numeral. -/
def ratOfParts : Bool × ℕ × ℕ × ℕ → ℚ
  | (neg, i, f, k) =>
    let v : ℚ := (i : ℚ) + (f : ℚ) / 10 ^ k
    if neg then -v else v

/-- Python `float(s)` on decimal numerals, as an exact rational. -/
def parseFloat (s : String) : Option ℚ :=
  (parseFloatParts s).map ratOfParts

/-- Python `int(s)`: optional surrounding whitespace, optional sign,
one or more digits (no decimal point). -/
def parseInt (s : String) : Option ℤ :=
  let p := parseSign (trimChars s.toList)
  if !p.2.isEmpty && p.2.all Char.isDigit then
    some (if p.1 then -(digitsToNat p.2 : ℤ) else (digitsToNat p.2 : ℤ))
  else none

/-- Decimal digits of `n`, least significant first; `fuel` bounds the
recursion (any `fuel > n` is exact). -/
def natDigitsRevCore : ℕ → ℕ → List Char
  | _, 0 => []
  | n, fuel + 1 => if n = 0 then [] else Nat.digitChar (n % 10) :: natDigitsRevCore (n / 10) fuel

/-- Decimal string of a natural number (Python `str`). -/
def natToString (n : ℕ) : String :=
  if n = 0 then "0" else String.mk (natDigitsRevCore n (n + 1)).reverse

/-- Decimal string of an integer (Python `str(int)`). -/
def intToString (i : ℤ) : String :=
  if i < 0 then "-" ++ natToString i.natAbs else natToString i.natAbs

/-- Insert a comma after every three characters of a reversed digit list
(i.e. every three digits counting from the least significant). -/
def groupRev : List Char → List Char
  | a :: b :: c :: d :: rest => a :: b :: c :: ',' :: groupRev (d :: rest)
  | l => l

/-- Thousands grouping of a digit string (the `,` of Python's `{:,.2f}`). -/
def groupDigits (s : String) : String :=
  String.mk (groupRev s.toList.reverse).reverse

/-- The whole number of hundredths a value is rounded to by `{:,.2f}`
(half-up on the exact rational; CPython rounds the binary double, which
agrees wherever the value is exactly representable). -/
def centsOf (x : ℚ) : ℤ :=
  ⌊x * 100 + 1 / 2⌋

/-- Rendering of a whole number of hundredths: currency symbol, sign,
thousands-grouped integer part, and exactly two fractional digits. -/
def formatCents (cents : ℤ) : String :=
  let sign : String := if cents < 0 then "-" else ""
  let a : ℕ := cents.natAbs
  "₹" ++ sign ++ groupDigits (natToString (a / 100)) ++ "." ++
    String.mk [Nat.digitChar (a / 10 % 10), Nat.digitChar (a % 10)]

/-- Python `f"₹{x:,.2f}"`. -/
def formatCurrency (x : ℚ) : String :=
  formatCents (centsOf x)

/-- Python `if k not in context or not context[k]: context[k] = v`
(app.py lines 120, 124). -/
def defaultIfFalsy (c : Ctx) (k : String) (v : JVal) : Ctx :=
  if truthyJ (lookupCtx c k) then c else setCtx c k v

/-- Python `if k not in context: context[k] = ""` (app.py lines 121-123). -/
def defaultIfAbsent (c : Ctx) (k : String) (v : JVal) : Ctx :=
  if (lookupCtx c k).isSome then c else setCtx c k v

/-- The required-field list of app.py line 100. -/
def requiredFields : List String :=
  ["product", "customer_name", "email", "rate", "quantity"]

/-- The validation loop of app.py lines 101-104: every required field is
present with a truthy value. -/
def requiredOk (c : Ctx) : Bool :=
  requiredFields.all fun f => truthyJ (lookupCtx c f)

/-- The success path of app.py lines 106-124 once `rate` has been converted
to the number `p` and `quantity` to the integer `n`: store the formatted
rate and total, overwrite `rate` with its formatted form, canonicalise
`quantity`, then apply the optional-field defaults (`today` is the
pre-formatted current date string). -/
def buildRecord (today : String) (c : Ctx) (p : ℚ) (n : ℤ) : Ctx :=
  let c₁ := setCtx c "rate_formatted" (JVal.jstr (formatCurrency p))
  let c₂ := setCtx c₁ "total" (JVal.jstr (formatCurrency (p * (n : ℚ))))
  let c₃ := setCtx c₂ "rate" (JVal.jstr (formatCurrency p))
  let c₄ := setCtx c₃ "quantity" (JVal.jstr (intToString n))
  let c₅ := defaultIfFalsy c₄ "date" (JVal.jstr today)
  let c₆ := defaultIfAbsent c₅ "company_name" (JVal.jstr "")
  let c₇ := defaultIfAbsent c₆ "hsn" (JVal.jstr "")
  let c₈ := defaultIfAbsent c₇ "q_no" (JVal.jstr "")
  defaultIfFalsy c₈ "units" (JVal.jstr "Nos")

/-- app.py lines 97-127: validation and formatting of the parsed model
response.  Returns `none` (Python `None`) when a required field is missing
or falsy, or when `rate` / `quantity` fail numeric conversion; otherwise
the completed record.  (The catch-all `some (JVal.jstr _)` pattern mirrors
the outer `except` of app.py line 129: a non-string in `float(...)` raises
and the function returns `None`; with the string-or-null value model this
branch is unreachable once validation has passed.) -/
def parse_command_with_ai (today : String) (context : Ctx) : Option Ctx :=
  if requiredOk context then
    match lookupCtx context "rate", lookupCtx context "quantity" with
    | some (JVal.jstr r), some (JVal.jstr q) =>
      match parseFloat r, parseInt q with
      | some p, some n => some (buildRecord today context p n)
      | _, _ => none
    | _, _ => none
  else none

/-- The whole extractor including the external model call and `json.loads`:
`response` is `none` when the call or the JSON parse failed (the `except`
of app.py line 129), otherwise the parsed dict. -/
def parse_command_full (today : String) (response : Option Ctx) : Option Ctx :=
  match response with
  | none => none
  | some context => parse_command_with_ai today context

/-! The webhook dispatcher (app.py lines 191-301) and its collaborators. -/

/-- The query parameters of a GET verification request, each `none` when the
parameter is absent (`request.args.get`). -/
structure GetQuery where
  hubMode : Option String
  hubVerifyToken : Option String
  hubChallenge : Option String
deriving DecidableEq

/-- A Flask `Response`: status code and optional body
(`Response(status=200)` / `Response(None, ...)` carry no body). -/
structure HttpResponse where
  status : ℕ
  body : Option String
deriving DecidableEq

/-- Python truthiness of an optional string (`request.args.get(...)`,
`attachment_path`): absent and empty are falsy. -/
def truthyStr : Option String → Bool
  | none => false
  | some s => !(s == "")

/-- The GET (verification) arm of `handle_webhook`, app.py lines 195-206.
`META_VERIFY_TOKEN` is the environment-sourced secret (`none` when the
variable is unset, app.py line 17); the equality test mirrors Python's
`request.args.get('hub.verify_token') == META_VERIFY_TOKEN` on
string-or-None values. -/
def handle_webhook_get (META_VERIFY_TOKEN : Option String) (q : GetQuery) : HttpResponse :=
  if q.hubMode = some "subscribe" ∧ truthyStr q.hubVerifyToken = true then
    if q.hubVerifyToken = META_VERIFY_TOKEN then
      ⟨200, q.hubChallenge⟩
    else
      ⟨403, some "Verification token mismatch"⟩
  else
    ⟨400, some "Failed verification"⟩

/-- Outcome of `send_email_with_attachment`: its return value, whether
`os.remove(attachment_path)` was attempted, and whether the file was
actually removed. -/
structure EmailOutcome where
  sent : Bool
  deleteAttempted : Bool
  deleted : Bool
deriving DecidableEq

/-- app.py lines 161-188.  `GMAIL_USER` / `GMAIL_PASS` come from the
environment; `smtpOk` is the outcome of the external SMTP connect-and-send
(`yagmail`), `removeOk` the outcome of the external `os.remove`.  The file
is removed (best effort, failure only logged) after a successful send, and
only then. -/
def send_email_with_attachment (GMAIL_USER GMAIL_PASS : Option String)
    (recipient_email subject body : String) (attachment_path : Option String)
    (smtpOk removeOk : Bool) : EmailOutcome :=
  if truthyStr attachment_path = false then ⟨false, false, false⟩
  else if truthyStr GMAIL_USER = false ∨ truthyStr GMAIL_PASS = false then ⟨false, false, false⟩
  else if smtpOk then ⟨true, true, removeOk⟩
  else ⟨false, false, false⟩

/-- String rendering of a context value inside an f-string: a missing key
renders via `.get`'s default, a JSON `null` renders as Python's `"None"`. -/
def ctxGetD (c : Ctx) (k d : String) : String :=
  match lookupCtx c k with
  | some (JVal.jstr s) => s
  | some JVal.jnull => "None"
  | none => d

/-- The email subject of app.py line 262. -/
def emailSubject (context : Ctx) : String :=
  "Quotation from NIVEE METAL PRODUCTS PVT LTD (Ref: " ++ ctxGetD context "q_no" "N/A" ++ ")"

/-- The email body of app.py lines 263-285 (whitespace elided). -/
def emailBody (context : Ctx) : String :=
  "Dear " ++ ctxGetD context "customer_name" "" ++
  ", Thank you for your enquiry. Please find our official quotation attached for the following item: - Product: " ++
  ctxGetD context "product" "" ++ " - Quantity: " ++ ctxGetD context "quantity" "" ++
  " - Rate: " ++ ctxGetD context "rate_formatted" "" ++ " - Total: " ++ ctxGetD context "total" "" ++
  " We have attached the complete quotation (Ref: " ++ ctxGetD context "q_no" "N/A" ++
  ") for your review. Thank you, Harsh Bhandari Nivee Metal Products Pvt. Ltd."

/-- The first entry of `value['messages']` (app.py lines 222-231). -/
inductive MsgData where
  /-- `type == 'text'` with `from` and `text.body` present. -/
  | textMsg (sender body : String)
  /-- `type == 'text'` but `from` or `text`/`body` missing: the `KeyError`
  is caught by the handler's `except` (app.py line 240). -/
  | textBroken
  /-- any other (or missing) `type` (app.py line 229). -/
  | nonText (ty : Option String)
deriving DecidableEq

/-- Classification of `entry[0].changes[0]` (app.py lines 222-238). -/
inductive ChangeData where
  /-- `value.messages` present and non-empty. -/
  | withMessages (m : MsgData)
  /-- `value.statuses` present and non-empty (a delivery-status event). -/
  | withStatuses
  /-- a `change` with neither messages nor statuses. -/
  | neither
deriving DecidableEq

/-- A POST body as seen by the handler (app.py lines 209-243). -/
inductive PostBody where
  /-- `request.json` failed or accessing `entry[0].changes[0]` raised: the
  `except` of app.py line 240 acknowledges with 200. -/
  | malformed
  /-- JSON without the expected `entry`/`changes` nesting (app.py 216). -/
  | noEntryChanges
  /-- the expected nesting, with classified content. -/
  | ok (c : ChangeData)
deriving DecidableEq

/-- Outcomes of the external collaborators consumed by one POST delivery:
the model response (already JSON-parsed, `none` on any model/parse
failure), the docx render result (`create_quotation_from_template`, which
catches its own exceptions and returns the file path or `None`), the SMTP
and file-removal outcomes, and the fire-and-forget WhatsApp reply outcome
(logged only, app.py lines 48-58). -/
structure Collaborators where
  aiResponse : String → Option Ctx
  render : Ctx → Option String
  smtpOk : Bool
  removeOk : Bool
  replyOk : Bool

/-- The POST (delivery) arm of `handle_webhook`, app.py lines 209-301:
classify the body; on a text message run extraction, rendering, email and
reply; acknowledge with `Response(status=200)` on every path. -/
def handle_webhook_post (GMAIL_USER GMAIL_PASS : Option String) (today : String)
    (ext : Collaborators) (b : PostBody) : HttpResponse :=
  match b with
  | PostBody.malformed => ⟨200, none⟩
  | PostBody.noEntryChanges => ⟨200, none⟩
  | PostBody.ok ChangeData.withStatuses => ⟨200, none⟩
  | PostBody.ok ChangeData.neither => ⟨200, none⟩
  | PostBody.ok (ChangeData.withMessages MsgData.textBroken) => ⟨200, none⟩
  | PostBody.ok (ChangeData.withMessages (MsgData.nonText _)) => ⟨200, none⟩
  | PostBody.ok (ChangeData.withMessages (MsgData.textMsg _ body)) =>
    match parse_command_full today (ext.aiResponse body) with
    | none => ⟨200, none⟩
    | some context =>
      match ext.render context with
      | none => ⟨200, none⟩
      | some doc_file =>
        let outcome := send_email_with_attachment GMAIL_USER GMAIL_PASS
          (ctxGetD context "email" "") (emailSubject context) (emailBody context)
          (some doc_file) ext.smtpOk ext.removeOk
        if outcome.sent then ⟨200, none⟩ else ⟨200, none⟩

/-- An inbound webhook request (the route accepts GET and POST). -/
inductive HttpRequest where
  | get (q : GetQuery)
  | post (b : PostBody)

/-- app.py lines 191-301: the whole `/webhook` handler. -/
def handle_webhook (META_VERIFY_TOKEN GMAIL_USER GMAIL_PASS : Option String)
    (today : String) (ext : Collaborators) : HttpRequest → HttpResponse
  | HttpRequest.get q => handle_webhook_get META_VERIFY_TOKEN q
  | HttpRequest.post b => handle_webhook_post GMAIL_USER GMAIL_PASS today ext b

/-! Lemmas about the context operations. -/

theorem lookup_setCtx (c : Ctx) (k : String) (v : JVal) (k₀ : String) :
    lookupCtx (setCtx c k v) k₀ = if k = k₀ then some v else lookupCtx c k₀ := by
  induction c with
  | nil => simp [setCtx, lookupCtx]
  | cons hd tl ih =>
    obtain ⟨k₁, v₁⟩ := hd
    by_cases h₁ : k₁ = k
    · subst h₁
      by_cases h₂ : k₁ = k₀ <;> simp [setCtx, lookupCtx, h₂]
    · by_cases h₂ : k₁ = k₀
      · subst h₂
        have : ¬ k = k₁ := fun h => h₁ h.symm
        simp [setCtx, lookupCtx, h₁, this]
      · simp [setCtx, lookupCtx, h₁, h₂, ih]

theorem lookup_defaultIfFalsy (c : Ctx) (k : String) (v : JVal) (k₀ : String) :
    lookupCtx (defaultIfFalsy c k v) k₀ =
      if truthyJ (lookupCtx c k) then lookupCtx c k₀
      else if k = k₀ then some v else lookupCtx c k₀ := by
  unfold defaultIfFalsy
  split <;> simp [lookup_setCtx]

theorem lookup_defaultIfAbsent (c : Ctx) (k : String) (v : JVal) (k₀ : String) :
    lookupCtx (defaultIfAbsent c k v) k₀ =
      if (lookupCtx c k).isSome then lookupCtx c k₀
      else if k = k₀ then some v else lookupCtx c k₀ := by
  unfold defaultIfAbsent
  split <;> simp [lookup_setCtx]

theorem truthyJ_iff (o : Option JVal) :
    truthyJ o = true ↔ ∃ s, o = some (JVal.jstr s) ∧ s ≠ "" := by
  match o with
  | none => simp [truthyJ]
  | some JVal.jnull => simp [truthyJ]
  | some (JVal.jstr s) => simp [truthyJ]

/-! The record built on the success path. -/

theorem lookup_buildRecord_rate (t : String) (c : Ctx) (p : ℚ) (n : ℤ) :
    lookupCtx (buildRecord t c p n) "rate" = some (JVal.jstr (formatCurrency p)) := by
  simp [buildRecord, lookup_defaultIfFalsy, lookup_defaultIfAbsent, lookup_setCtx]

theorem lookup_buildRecord_rate_formatted (t : String) (c : Ctx) (p : ℚ) (n : ℤ) :
    lookupCtx (buildRecord t c p n) "rate_formatted" = some (JVal.jstr (formatCurrency p)) := by
  simp [buildRecord, lookup_defaultIfFalsy, lookup_defaultIfAbsent, lookup_setCtx]

theorem lookup_buildRecord_total (t : String) (c : Ctx) (p : ℚ) (n : ℤ) :
    lookupCtx (buildRecord t c p n) "total" =
      some (JVal.jstr (formatCurrency (p * (n : ℚ)))) := by
  simp [buildRecord, lookup_defaultIfFalsy, lookup_defaultIfAbsent, lookup_setCtx]

theorem lookup_buildRecord_quantity (t : String) (c : Ctx) (p : ℚ) (n : ℤ) :
    lookupCtx (buildRecord t c p n) "quantity" = some (JVal.jstr (intToString n)) := by
  simp [buildRecord, lookup_defaultIfFalsy, lookup_defaultIfAbsent, lookup_setCtx]

theorem lookup_buildRecord_date (t : String) (c : Ctx) (p : ℚ) (n : ℤ) :
    lookupCtx (buildRecord t c p n) "date" =
      if truthyJ (lookupCtx c "date") then lookupCtx c "date" else some (JVal.jstr t) := by
  simp [buildRecord, lookup_defaultIfFalsy, lookup_defaultIfAbsent, lookup_setCtx]

theorem lookup_buildRecord_company_name (t : String) (c : Ctx) (p : ℚ) (n : ℤ) :
    lookupCtx (buildRecord t c p n) "company_name" =
      if (lookupCtx c "company_name").isSome then lookupCtx c "company_name"
      else some (JVal.jstr "") := by
  simp [buildRecord, lookup_defaultIfFalsy, lookup_defaultIfAbsent, lookup_setCtx]

theorem lookup_buildRecord_hsn (t : String) (c : Ctx) (p : ℚ) (n : ℤ) :
    lookupCtx (buildRecord t c p n) "hsn" =
      if (lookupCtx c "hsn").isSome then lookupCtx c "hsn" else some (JVal.jstr "") := by
  simp [buildRecord, lookup_defaultIfFalsy, lookup_defaultIfAbsent, lookup_setCtx]

theorem lookup_buildRecord_q_no (t : String) (c : Ctx) (p : ℚ) (n : ℤ) :
    lookupCtx (buildRecord t c p n) "q_no" =
      if (lookupCtx c "q_no").isSome then lookupCtx c "q_no" else some (JVal.jstr "") := by
  simp [buildRecord, lookup_defaultIfFalsy, lookup_defaultIfAbsent, lookup_setCtx]

theorem lookup_buildRecord_units (t : String) (c : Ctx) (p : ℚ) (n : ℤ) :
    lookupCtx (buildRecord t c p n) "units" =
      if truthyJ (lookupCtx c "units") then lookupCtx c "units"
      else some (JVal.jstr "Nos") := by
  simp [buildRecord, lookup_defaultIfFalsy, lookup_defaultIfAbsent, lookup_setCtx]

/-! Characterising extraction success. -/

theorem requiredOk_truthy {c : Ctx} (h : requiredOk c = true) {f : String}
    (hf : f ∈ requiredFields) : truthyJ (lookupCtx c f) = true := by
  have := List.all_eq_true.mp h
  exact this f hf

theorem parse_some_iff (t : String) (c : Ctx) (out : Ctx) :
    parse_command_with_ai t c = some out ↔
      ∃ r q p n, requiredOk c = true ∧
        lookupCtx c "rate" = some (JVal.jstr r) ∧
        lookupCtx c "quantity" = some (JVal.jstr q) ∧
        parseFloat r = some p ∧ parseInt q = some n ∧
        out = buildRecord t c p n := by
  constructor
  · intro h
    unfold parse_command_with_ai at h
    by_cases hok : requiredOk c = true
    case neg => simp [hok] at h
    rw [if_pos hok] at h
    have hr := requiredOk_truthy hok (f := "rate") (by simp [requiredFields])
    have hq := requiredOk_truthy hok (f := "quantity") (by simp [requiredFields])
    obtain ⟨r, hr₁, -⟩ := (truthyJ_iff _).mp hr
    obtain ⟨q, hq₁, -⟩ := (truthyJ_iff _).mp hq
    simp only [hr₁, hq₁] at h
    cases hp : parseFloat r with
    | none => simp [hp] at h
    | some p =>
      cases hn : parseInt q with
      | none => simp [hp, hn] at h
      | some n =>
        simp only [hp, hn, Option.some.injEq] at h
        exact ⟨r, q, p, n, hok, hr₁, hq₁, hp, hn, h.symm⟩
  · rintro ⟨r, q, p, n, hok, hr₁, hq₁, hp, hn, rfl⟩
    unfold parse_command_with_ai
    simp only [if_pos hok, hr₁, hq₁, hp, hn]

theorem parse_isSome_iff (t : String) (c : Ctx) :
    (parse_command_with_ai t c).isSome = true ↔
      requiredOk c = true ∧
      (∃ r, lookupCtx c "rate" = some (JVal.jstr r) ∧ (parseFloat r).isSome = true) ∧
      (∃ q, lookupCtx c "quantity" = some (JVal.jstr q) ∧ (parseInt q).isSome = true) := by
  rw [Option.isSome_iff_exists]
  constructor
  · rintro ⟨out, hout⟩
    obtain ⟨r, q, p, n, hok, hr₁, hq₁, hp, hn, -⟩ := (parse_some_iff t c out).mp hout
    exact ⟨hok, ⟨r, hr₁, by simp [hp]⟩, ⟨q, hq₁, by simp [hn]⟩⟩
  · rintro ⟨hok, ⟨r, hr₁, hp⟩, ⟨q, hq₁, hn⟩⟩
    obtain ⟨p, hp⟩ := Option.isSome_iff_exists.mp hp
    obtain ⟨n, hn⟩ := Option.isSome_iff_exists.mp hn
    exact ⟨buildRecord t c p n,
      (parse_some_iff t c _).mpr ⟨r, q, p, n, hok, hr₁, hq₁, hp, hn, rfl⟩⟩

/-! Concrete evaluations.

The spec's running example: rate `"600"`, quantity `"500"`, evaluated on
three model responses (all fields present; only the required fields;
optional fields present but empty or null). -/

theorem parseFloat_600 : parseFloat "600" = some 600 := by
  have h : parseFloatParts "600" = some (false, 600, 0, 0) := by decide
  have hv : ratOfParts (false, 600, 0, 0) = 600 := by
    simp only [ratOfParts]
    norm_num
  rw [parseFloat, h]
  show some (ratOfParts (false, 600, 0, 0)) = some 600
  rw [hv]

theorem parseInt_500 : parseInt "500" = some 500 := by decide

theorem formatCurrency_600 : formatCurrency 600 = "₹600.00" := by
  have h : centsOf 600 = 60000 := by norm_num [centsOf]
  rw [formatCurrency, h]; decide

theorem formatCurrency_600x500 : formatCurrency (600 * ((500 : ℤ) : ℚ)) = "₹300,000.00" := by
  have h : centsOf (600 * ((500 : ℤ) : ℚ)) = 30000000 := by norm_num [centsOf]
  rw [formatCurrency, h]; decide

def exToday : String := "May 05, 2025"

/-- A full model response (the spec §8 end-to-end example). -/
def exCtx : Ctx :=
  [("q_no", JVal.jstr "101"), ("date", JVal.jstr "May 05, 2025"),
   ("company_name", JVal.jstr "Raj pvt ltd"), ("customer_name", JVal.jstr "Raju"),
   ("product", JVal.jstr "3in pipe"), ("quantity", JVal.jstr "500"),
   ("rate", JVal.jstr "600"), ("units", JVal.jstr "Pcs"),
   ("hsn", JVal.jstr "7304"), ("email", JVal.jstr "raju@example.com")]

/-- The record extraction builds from `exCtx`. -/
def exOut : Ctx :=
  [("q_no", JVal.jstr "101"), ("date", JVal.jstr "May 05, 2025"),
   ("company_name", JVal.jstr "Raj pvt ltd"), ("customer_name", JVal.jstr "Raju"),
   ("product", JVal.jstr "3in pipe"), ("quantity", JVal.jstr "500"),
   ("rate", JVal.jstr "₹600.00"), ("units", JVal.jstr "Pcs"),
   ("hsn", JVal.jstr "7304"), ("email", JVal.jstr "raju@example.com"),
   ("rate_formatted", JVal.jstr "₹600.00"), ("total", JVal.jstr "₹300,000.00")]

/-- A model response carrying only the five required fields. -/
def exCtxMin : Ctx :=
  [("product", JVal.jstr "3in pipe"), ("customer_name", JVal.jstr "Raju"),
   ("email", JVal.jstr "raju@example.com"), ("rate", JVal.jstr "600"),
   ("quantity", JVal.jstr "500")]

/-- The record extraction builds from `exCtxMin`: all defaults applied. -/
def exOutMin : Ctx :=
  [("product", JVal.jstr "3in pipe"), ("customer_name", JVal.jstr "Raju"),
   ("email", JVal.jstr "raju@example.com"), ("rate", JVal.jstr "₹600.00"),
   ("quantity", JVal.jstr "500"), ("rate_formatted", JVal.jstr "₹600.00"),
   ("total", JVal.jstr "₹300,000.00"), ("date", JVal.jstr "May 05, 2025"),
   ("company_name", JVal.jstr ""), ("hsn", JVal.jstr ""),
   ("q_no", JVal.jstr ""), ("units", JVal.jstr "Nos")]

/-- A model response whose optional fields are present but empty or null. -/
def exCtxEmptyOpt : Ctx :=
  [("product", JVal.jstr "3in pipe"), ("customer_name", JVal.jstr "Raju"),
   ("email", JVal.jstr "raju@example.com"), ("rate", JVal.jstr "600"),
   ("quantity", JVal.jstr "500"), ("hsn", JVal.jstr ""),
   ("company_name", JVal.jnull), ("q_no", JVal.jstr ""),
   ("units", JVal.jstr ""), ("date", JVal.jstr "")]

/-- The record extraction builds from `exCtxEmptyOpt`: the present-but-empty
`hsn`, `company_name`, `q_no` survive unchanged; the empty `units` and
`date` are replaced by their defaults. -/
def exOutEmptyOpt : Ctx :=
  [("product", JVal.jstr "3in pipe"), ("customer_name", JVal.jstr "Raju"),
   ("email", JVal.jstr "raju@example.com"), ("rate", JVal.jstr "₹600.00"),
   ("quantity", JVal.jstr "500"), ("hsn", JVal.jstr ""),
   ("company_name", JVal.jnull), ("q_no", JVal.jstr ""),
   ("units", JVal.jstr "Nos"), ("date", JVal.jstr "May 05, 2025"),
   ("rate_formatted", JVal.jstr "₹600.00"), ("total", JVal.jstr "₹300,000.00")]

theorem parse_exCtx : parse_command_with_ai exToday exCtx = some exOut := by
  apply (parse_some_iff _ _ _).mpr
  refine ⟨"600", "500", 600, 500, by decide, by decide, by decide,
    parseFloat_600, parseInt_500, ?_⟩
  simp only [buildRecord]
  rw [formatCurrency_600, formatCurrency_600x500]
  decide

theorem parse_exCtxMin : parse_command_with_ai exToday exCtxMin = some exOutMin := by
  apply (parse_some_iff _ _ _).mpr
  refine ⟨"600", "500", 600, 500, by decide, by decide, by decide,
    parseFloat_600, parseInt_500, ?_⟩
  simp only [buildRecord]
  rw [formatCurrency_600, formatCurrency_600x500]
  decide

theorem parse_exCtxEmptyOpt :
    parse_command_with_ai exToday exCtxEmptyOpt = some exOutEmptyOpt := by
  apply (parse_some_iff _ _ _).mpr
  refine ⟨"600", "500", 600, 500, by decide, by decide, by decide,
    parseFloat_600, parseInt_500, ?_⟩
  simp only [buildRecord]
  rw [formatCurrency_600, formatCurrency_600x500]
  decide

/-! The shape of a currency display string. -/

/-- A currency display string: the `₹` symbol, an optional sign, a
thousands-grouped non-empty digit string, a decimal point, and exactly two
fractional digits. -/
def isCurrencyDisplay (s : String) : Prop :=
  ∃ (sign ip : String) (f₁ f₂ : Char),
    (sign = "" ∨ sign = "-") ∧ ip.toList ≠ [] ∧ ip.toList.all Char.isDigit = true ∧
    f₁.isDigit = true ∧ f₂.isDigit = true ∧
    s = "₹" ++ sign ++ groupDigits ip ++ "." ++ String.mk [f₁, f₂]

theorem digitChar_isDigit {m : ℕ} (h : m < 10) : (Nat.digitChar m).isDigit = true := by
  interval_cases m <;> decide

theorem natDigitsRevCore_all_digits (fuel n : ℕ) :
    (natDigitsRevCore n fuel).all Char.isDigit = true := by
  induction fuel generalizing n with
  | zero => rfl
  | succ fuel ih =>
    unfold natDigitsRevCore
    split
    · rfl
    · simp only [List.all_cons, Bool.and_eq_true]
      exact ⟨digitChar_isDigit (Nat.mod_lt _ (by norm_num)), ih _⟩

theorem natToString_toList (n : ℕ) :
    (natToString n).toList = if n = 0 then ['0'] else (natDigitsRevCore n (n + 1)).reverse := by
  unfold natToString
  split <;> rfl

theorem natToString_ne_nil (n : ℕ) : (natToString n).toList ≠ [] := by
  rw [natToString_toList]
  split
  · simp
  · rename_i h
    rw [natDigitsRevCore]
    simp only [if_neg h]
    simp

theorem natToString_all_digits (n : ℕ) :
    (natToString n).toList.all Char.isDigit = true := by
  rw [natToString_toList]
  split
  · decide
  · rw [List.all_reverse]
    exact natDigitsRevCore_all_digits _ _

theorem formatCents_shape (cents : ℤ) : isCurrencyDisplay (formatCents cents) := by
  refine ⟨if cents < 0 then "-" else "", natToString (cents.natAbs / 100),
    Nat.digitChar (cents.natAbs / 10 % 10), Nat.digitChar (cents.natAbs % 10),
    ?_, natToString_ne_nil _, natToString_all_digits _,
    digitChar_isDigit (Nat.mod_lt _ (by norm_num)),
    digitChar_isDigit (Nat.mod_lt _ (by norm_num)), ?_⟩
  · split <;> simp
  · rfl

theorem formatCurrency_shape (x : ℚ) : isCurrencyDisplay (formatCurrency x) :=
  formatCents_shape (centsOf x)

/-! The claims. -/

/-- C1: for every model-response input, extraction succeeds (returns a
record rather than `none`) if and only if the five required fields
`product`, `customer_name`, `email`, `rate`, `quantity` are all present
with non-empty values, `rate` parses as a floating-point number, and
`quantity` parses as an integer; whenever any condition fails the result is
`none`, so no partial record is ever produced. -/
theorem C1_extraction_success_iff (today : String) (c : Ctx) :
    (parse_command_with_ai today c).isSome = true ↔
      (∀ f ∈ requiredFields, ∃ s, lookupCtx c f = some (JVal.jstr s) ∧ s ≠ "") ∧
      (∃ r, lookupCtx c "rate" = some (JVal.jstr r) ∧ (parseFloat r).isSome = true) ∧
      (∃ q, lookupCtx c "quantity" = some (JVal.jstr q) ∧ (parseInt q).isSome = true) := by
  rw [parse_isSome_iff]
  have hreq : requiredOk c = true ↔
      ∀ f ∈ requiredFields, ∃ s, lookupCtx c f = some (JVal.jstr s) ∧ s ≠ "" := by
    unfold requiredOk
    rw [List.all_eq_true]
    constructor
    · intro h f hf
      exact (truthyJ_iff _).mp (h f hf)
    · intro h f hf
      exact (truthyJ_iff _).mpr (h f hf)
  rw [hreq]

/-- C1 witness: on the five-field example response the conditions hold and
extraction succeeds. -/
theorem C1_witness : (parse_command_with_ai exToday exCtxMin).isSome = true := by
  apply (C1_extraction_success_iff exToday exCtxMin).mpr
  refine ⟨?_, ⟨"600", by decide, by rw [parseFloat_600]; rfl⟩,
    ⟨"500", by decide, by rw [parseInt_500]; rfl⟩⟩
  intro f hf
  fin_cases hf
  · exact ⟨"3in pipe", by decide, by decide⟩
  · exact ⟨"Raju", by decide, by decide⟩
  · exact ⟨"raju@example.com", by decide, by decide⟩
  · exact ⟨"600", by decide, by decide⟩
  · exact ⟨"500", by decide, by decide⟩

/-- C2: for every successful extraction, the `total` field is the currency
rendering of the numeric rate (parsed from the raw `rate` string of the
input, before that field is overwritten) times the parsed integer
quantity. -/
theorem C2_total_from_numeric (today : String) (c out : Ctx)
    (h : parse_command_with_ai today c = some out) :
    ∃ r q p n, lookupCtx c "rate" = some (JVal.jstr r) ∧
      lookupCtx c "quantity" = some (JVal.jstr q) ∧
      parseFloat r = some p ∧ parseInt q = some n ∧
      lookupCtx out "total" = some (JVal.jstr (formatCurrency (p * (n : ℚ)))) := by
  obtain ⟨r, q, p, n, hok, hr, hq, hp, hn, rfl⟩ := (parse_some_iff _ _ _).mp h
  exact ⟨r, q, p, n, hr, hq, hp, hn, lookup_buildRecord_total _ _ _ _⟩

/-- C2 witness: on the full example response, `total` is the rendering of
600 × 500. -/
theorem C2_witness :
    ∃ r q p n, lookupCtx exCtx "rate" = some (JVal.jstr r) ∧
      lookupCtx exCtx "quantity" = some (JVal.jstr q) ∧
      parseFloat r = some p ∧ parseInt q = some n ∧
      lookupCtx exOut "total" = some (JVal.jstr (formatCurrency (p * (n : ℚ)))) :=
  C2_total_from_numeric exToday exCtx exOut parse_exCtx

/-- C3: for every successful extraction the `rate` and `total` fields are
currency display strings (symbol, optional sign, thousands-grouped digits,
exactly two fractional digits) of the parsed numeric rate and of
rate × quantity; in particular the example input with rate `"600"` and
quantity `"500"` yields rate display `"₹600.00"` and total display
`"₹300,000.00"`. -/
theorem C3_currency_display :
    (∀ today c out, parse_command_with_ai today c = some out →
      ∃ r p n, lookupCtx c "rate" = some (JVal.jstr r) ∧ parseFloat r = some p ∧
        lookupCtx out "rate" = some (JVal.jstr (formatCurrency p)) ∧
        lookupCtx out "total" = some (JVal.jstr (formatCurrency (p * (n : ℚ)))) ∧
        isCurrencyDisplay (formatCurrency p) ∧
        isCurrencyDisplay (formatCurrency (p * (n : ℚ)))) ∧
    parse_command_with_ai exToday exCtx = some exOut ∧
    lookupCtx exOut "rate" = some (JVal.jstr "₹600.00") ∧
    lookupCtx exOut "total" = some (JVal.jstr "₹300,000.00") := by
  refine ⟨?_, parse_exCtx, by decide, by decide⟩
  intro today c out h
  obtain ⟨r, q, p, n, hok, hr, hq, hp, hn, rfl⟩ := (parse_some_iff _ _ _).mp h
  exact ⟨r, p, n, hr, hp, lookup_buildRecord_rate _ _ _ _,
    lookup_buildRecord_total _ _ _ _, formatCurrency_shape _, formatCurrency_shape _⟩

/-- C3 witness: the universally quantified part applied to the example
extraction. -/
theorem C3_witness :
    ∃ r p n, lookupCtx exCtx "rate" = some (JVal.jstr r) ∧ parseFloat r = some p ∧
      lookupCtx exOut "rate" = some (JVal.jstr (formatCurrency p)) ∧
      lookupCtx exOut "total" = some (JVal.jstr (formatCurrency (p * (n : ℚ)))) ∧
      isCurrencyDisplay (formatCurrency p) ∧
      isCurrencyDisplay (formatCurrency (p * (n : ℚ))) :=
  C3_currency_display.1 exToday exCtx exOut parse_exCtx

/-- C4: for every successful extraction the optional fields are defaulted:
absent-or-empty `units` becomes `"Nos"`, absent-or-empty `date` becomes the
current date string, and absent `hsn` / `company_name` / `q_no` become the
empty string; those three keys are present in every result. -/
theorem C4_optional_defaults (today : String) (c out : Ctx)
    (h : parse_command_with_ai today c = some out) :
    ((lookupCtx c "units" = none ∨ lookupCtx c "units" = some (JVal.jstr "")) →
      lookupCtx out "units" = some (JVal.jstr "Nos")) ∧
    ((lookupCtx c "date" = none ∨ lookupCtx c "date" = some (JVal.jstr "")) →
      lookupCtx out "date" = some (JVal.jstr today)) ∧
    (lookupCtx c "hsn" = none → lookupCtx out "hsn" = some (JVal.jstr "")) ∧
    (lookupCtx c "company_name" = none → lookupCtx out "company_name" = some (JVal.jstr "")) ∧
    (lookupCtx c "q_no" = none → lookupCtx out "q_no" = some (JVal.jstr "")) ∧
    (lookupCtx out "hsn").isSome = true ∧
    (lookupCtx out "company_name").isSome = true ∧
    (lookupCtx out "q_no").isSome = true := by
  obtain ⟨r, q, p, n, hok, hr, hq, hp, hn, rfl⟩ := (parse_some_iff _ _ _).mp h
  refine ⟨?_, ?_, ?_, ?_, ?_, ?_, ?_, ?_⟩
  · intro hu
    rw [lookup_buildRecord_units]
    rcases hu with hu | hu <;> simp [hu, truthyJ]
  · intro hd
    rw [lookup_buildRecord_date]
    rcases hd with hd | hd <;> simp [hd, truthyJ]
  · intro hh
    rw [lookup_buildRecord_hsn, hh]
    rfl
  · intro hh
    rw [lookup_buildRecord_company_name, hh]
    rfl
  · intro hh
    rw [lookup_buildRecord_q_no, hh]
    rfl
  · rw [lookup_buildRecord_hsn]
    split <;> simp_all
  · rw [lookup_buildRecord_company_name]
    split <;> simp_all
  · rw [lookup_buildRecord_q_no]
    split <;> simp_all

/-- C4 witness: on the required-fields-only example response every default
fires. -/
theorem C4_witness :
    lookupCtx exOutMin "units" = some (JVal.jstr "Nos") ∧
    lookupCtx exOutMin "date" = some (JVal.jstr exToday) ∧
    lookupCtx exOutMin "hsn" = some (JVal.jstr "") ∧
    lookupCtx exOutMin "company_name" = some (JVal.jstr "") ∧
    lookupCtx exOutMin "q_no" = some (JVal.jstr "") := by
  obtain ⟨h₁, h₂, h₃, h₄, h₅, -⟩ :=
    C4_optional_defaults exToday exCtxMin exOutMin parse_exCtxMin
  exact ⟨h₁ (Or.inl (by decide)), h₂ (Or.inl (by decide)),
    h₃ (by decide), h₄ (by decide), h₅ (by decide)⟩

/-- C5 counterexample: extraction of the full example succeeds, but the
resulting record does not retain the raw numeric rate `"600"` anywhere:
both `rate` and `rate_formatted` hold the formatted display string, so the
record does not store the rate "both as the raw numeric input and as a
display string". -/
theorem C5_counterexample :
    parse_command_with_ai exToday exCtx = some exOut ∧
    lookupCtx exCtx "rate" = some (JVal.jstr "600") ∧
    lookupCtx exOut "rate" = some (JVal.jstr "₹600.00") ∧
    lookupCtx exOut "rate_formatted" = some (JVal.jstr "₹600.00") ∧
    exOut.all (fun kv => !(kv.2 == JVal.jstr "600")) = true :=
  ⟨parse_exCtx, by decide, by decide, by decide, by decide⟩

/-- C5 (amended): for every successful extraction the record stores the
currency-formatted display string of the numeric rate in both the `rate`
field (overwriting the raw input) and the `rate_formatted` field; the raw
numeric input itself is not retained. -/
theorem C5_rate_stored_formatted (today : String) (c out : Ctx)
    (h : parse_command_with_ai today c = some out) :
    ∃ r p, lookupCtx c "rate" = some (JVal.jstr r) ∧ parseFloat r = some p ∧
      lookupCtx out "rate" = some (JVal.jstr (formatCurrency p)) ∧
      lookupCtx out "rate_formatted" = some (JVal.jstr (formatCurrency p)) := by
  obtain ⟨r, q, p, n, hok, hr, hq, hp, hn, rfl⟩ := (parse_some_iff _ _ _).mp h
  exact ⟨r, p, hr, hp, lookup_buildRecord_rate _ _ _ _,
    lookup_buildRecord_rate_formatted _ _ _ _⟩

/-- C5 witness: the amended statement applied to the example extraction. -/
theorem C5_witness :
    ∃ r p, lookupCtx exCtx "rate" = some (JVal.jstr r) ∧ parseFloat r = some p ∧
      lookupCtx exOut "rate" = some (JVal.jstr (formatCurrency p)) ∧
      lookupCtx exOut "rate_formatted" = some (JVal.jstr (formatCurrency p)) :=
  C5_rate_stored_formatted exToday exCtx exOut parse_exCtx

/-- C6 counterexample: with the secret configured and a GET query whose
`hub.verify_token` is present but empty (`mode = "subscribe"`), the claim
demands a 403 token-mismatch response, but the handler treats the empty
parameter as missing and answers 400. -/
theorem C6_counterexample :
    (handle_webhook_get (some "secret")
        ⟨some "subscribe", some "", some "XYZ123"⟩).status = 400 ∧
    ¬ (handle_webhook_get (some "secret")
        ⟨some "subscribe", some "", some "XYZ123"⟩).status = 403 := by
  decide

/-- C6 (amended): for every GET request, if `hub.mode` equals `"subscribe"`
and `hub.verify_token` is present with a non-empty value, the response is
200 with body `hub.challenge` when the token equals the configured secret
and 403 otherwise; in every other case — `hub.mode` missing or not
`"subscribe"`, or `hub.verify_token` absent or empty — the response is
400. -/
theorem C6_verification (META_VERIFY_TOKEN : Option String) (q : GetQuery) :
    (q.hubMode = some "subscribe" → truthyStr q.hubVerifyToken = true →
      (q.hubVerifyToken = META_VERIFY_TOKEN →
        handle_webhook_get META_VERIFY_TOKEN q = ⟨200, q.hubChallenge⟩) ∧
      (q.hubVerifyToken ≠ META_VERIFY_TOKEN →
        handle_webhook_get META_VERIFY_TOKEN q =
          ⟨403, some "Verification token mismatch"⟩)) ∧
    (¬ (q.hubMode = some "subscribe" ∧ truthyStr q.hubVerifyToken = true) →
      handle_webhook_get META_VERIFY_TOKEN q = ⟨400, some "Failed verification"⟩) := by
  constructor
  · intro hm ht
    constructor
    · intro heq
      unfold handle_webhook_get
      rw [if_pos ⟨hm, ht⟩, if_pos heq]
    · intro hne
      unfold handle_webhook_get
      rw [if_pos ⟨hm, ht⟩, if_neg hne]
  · intro hno
    unfold handle_webhook_get
    rw [if_neg hno]

/-- C6 witness: a matching token is echoed the challenge with status 200,
and a mismatched token is refused with 403. -/
theorem C6_witness :
    handle_webhook_get (some "tok") ⟨some "subscribe", some "tok", some "XYZ123"⟩ =
      ⟨200, some "XYZ123"⟩ ∧
    handle_webhook_get (some "tok") ⟨some "subscribe", some "bad", some "XYZ123"⟩ =
      ⟨403, some "Verification token mismatch"⟩ :=
  ⟨((C6_verification (some "tok") ⟨some "subscribe", some "tok", some "XYZ123"⟩).1
      rfl (by decide)).1 rfl,
   ((C6_verification (some "tok") ⟨some "subscribe", some "bad", some "XYZ123"⟩).1
      rfl (by decide)).2 (by decide)⟩

/-- C7: every POST delivery — malformed JSON, unrecognized structure,
status event, non-text message, broken text message, and every combination
of extraction / render / SMTP / removal / reply outcomes — is answered with
HTTP status 200. -/
theorem C7_post_always_200 (META_VERIFY_TOKEN GMAIL_USER GMAIL_PASS : Option String)
    (today : String) (ext : Collaborators) (b : PostBody) :
    (handle_webhook META_VERIFY_TOKEN GMAIL_USER GMAIL_PASS today ext
      (HttpRequest.post b)).status = 200 := by
  show (handle_webhook_post GMAIL_USER GMAIL_PASS today ext b).status = 200
  cases b with
  | malformed => rfl
  | noEntryChanges => rfl
  | ok c =>
    cases c with
    | withStatuses => rfl
    | neither => rfl
    | withMessages m =>
      cases m with
      | textBroken => rfl
      | nonText ty => rfl
      | textMsg sender body =>
        cases hp : parse_command_full today (ext.aiResponse body) with
        | none => simp [handle_webhook_post, hp]
        | some context =>
          cases hr : ext.render context with
          | none => simp [handle_webhook_post, hp, hr]
          | some doc_file =>
            simp only [handle_webhook_post, hp, hr]
            split <;> rfl

/-- C8: `send_email_with_attachment` attempts to delete the rendered file
exactly when the SMTP send succeeded (the attempt itself is best-effort:
the file is gone only if the removal also succeeded), so on every failed
send the file is left in place. -/
theorem C8_cleanup_iff_sent (GMAIL_USER GMAIL_PASS : Option String)
    (recipient_email subject body : String) (attachment_path : Option String)
    (smtpOk removeOk : Bool) :
    ((send_email_with_attachment GMAIL_USER GMAIL_PASS recipient_email subject body
        attachment_path smtpOk removeOk).deleteAttempted =
      (send_email_with_attachment GMAIL_USER GMAIL_PASS recipient_email subject body
        attachment_path smtpOk removeOk).sent) ∧
    ((send_email_with_attachment GMAIL_USER GMAIL_PASS recipient_email subject body
        attachment_path smtpOk removeOk).deleted =
      ((send_email_with_attachment GMAIL_USER GMAIL_PASS recipient_email subject body
        attachment_path smtpOk removeOk).sent && removeOk)) := by
  unfold send_email_with_attachment
  split_ifs <;> simp

/-- C9: for every successful extraction, a present-but-empty (or null)
`hsn`, `company_name` or `q_no` value is kept unchanged rather than
defaulted, while a present-but-falsy `units` or `date` is replaced by its
default (`"Nos"` / the current date string). -/
theorem C9_present_empty_kept (today : String) (c out : Ctx)
    (h : parse_command_with_ai today c = some out) :
    (∀ v, lookupCtx c "hsn" = some v → truthyJ (some v) = false →
      lookupCtx out "hsn" = some v) ∧
    (∀ v, lookupCtx c "company_name" = some v → truthyJ (some v) = false →
      lookupCtx out "company_name" = some v) ∧
    (∀ v, lookupCtx c "q_no" = some v → truthyJ (some v) = false →
      lookupCtx out "q_no" = some v) ∧
    (∀ v, lookupCtx c "units" = some v → truthyJ (some v) = false →
      lookupCtx out "units" = some (JVal.jstr "Nos")) ∧
    (∀ v, lookupCtx c "date" = some v → truthyJ (some v) = false →
      lookupCtx out "date" = some (JVal.jstr today)) := by
  obtain ⟨r, q, p, n, hok, hr, hq, hp, hn, rfl⟩ := (parse_some_iff _ _ _).mp h
  refine ⟨?_, ?_, ?_, ?_, ?_⟩
  · intro v hv _
    rw [lookup_buildRecord_hsn, hv]
    rfl
  · intro v hv _
    rw [lookup_buildRecord_company_name, hv]
    rfl
  · intro v hv _
    rw [lookup_buildRecord_q_no, hv]
    rfl
  · intro v hv hf
    rw [lookup_buildRecord_units, hv, hf]
    rfl
  · intro v hv hf
    rw [lookup_buildRecord_date, hv, hf]
    rfl

/-- C9 witness: on the example response whose optional fields are present
but empty or null, `hsn` / `company_name` / `q_no` survive unchanged while
`units` and `date` are defaulted. -/
theorem C9_witness :
    lookupCtx exOutEmptyOpt "hsn" = some (JVal.jstr "") ∧
    lookupCtx exOutEmptyOpt "company_name" = some JVal.jnull ∧
    lookupCtx exOutEmptyOpt "q_no" = some (JVal.jstr "") ∧
    lookupCtx exOutEmptyOpt "units" = some (JVal.jstr "Nos") ∧
    lookupCtx exOutEmptyOpt "date" = some (JVal.jstr exToday) := by
  obtain ⟨h₁, h₂, h₃, h₄, h₅⟩ :=
    C9_present_empty_kept exToday exCtxEmptyOpt exOutEmptyOpt parse_exCtxEmptyOpt
  exact ⟨h₁ (JVal.jstr "") (by decide) (by decide),
    h₂ JVal.jnull (by decide) (by decide),
    h₃ (JVal.jstr "") (by decide) (by decide),
    h₄ (JVal.jstr "") (by decide) (by decide),
    h₅ (JVal.jstr "") (by decide) (by decide)⟩

/-- C10: when the webhook verification secret is unset in the environment,
no GET request is ever answered 200; in particular every request with
`hub.mode = "subscribe"` and a non-empty `hub.verify_token` is refused
with 403. -/
theorem C10_unset_secret_never_verifies (q : GetQuery) :
    (handle_webhook_get none q).status ≠ 200 ∧
    (q.hubMode = some "subscribe" → truthyStr q.hubVerifyToken = true →
      handle_webhook_get none q = ⟨403, some "Verification token mismatch"⟩) := by
  have hmm : ∀ h : q.hubMode = some "subscribe" ∧ truthyStr q.hubVerifyToken = true,
      handle_webhook_get none q = ⟨403, some "Verification token mismatch"⟩ := by
    intro h
    unfold handle_webhook_get
    rw [if_pos h]
    have : q.hubVerifyToken ≠ none := by
      intro hv
      rw [hv] at h
      exact absurd h.2 (by decide)
    rw [if_neg this]
  constructor
  · by_cases h : q.hubMode = some "subscribe" ∧ truthyStr q.hubVerifyToken = true
    · rw [hmm h]
      decide
    · unfold handle_webhook_get
      rw [if_neg h]
      decide
  · intro hm ht
    exact hmm ⟨hm, ht⟩

/-- C10 witness: with the secret unset, a well-formed subscribe request
with a non-empty token gets 403. -/
theorem C10_witness :
    handle_webhook_get none ⟨some "subscribe", some "anytoken", some "XYZ123"⟩ =
      ⟨403, some "Verification token mismatch"⟩ :=
  (C10_unset_secret_never_verifies
    ⟨some "subscribe", some "anytoken", some "XYZ123"⟩).2 rfl (by decide)
